import Mathlib

/-!
Verification of the Lab Instrument API Gateway core against its
natural-language specification.

The Go sources are shallowly embedded: timestamps are seconds as `Nat`
(`time.Time` / `time.Duration`), Go maps become association lists,
fallible calls return `Except`/`Option`, and in-place mutation becomes
explicit state passing.  Each definition is translated from one named
Go function; the file/line of the source is recorded in its comment.
-/

namespace LabGateway

/-- Decidable equality for Except values, used to evaluate the embedded
fallible operations on concrete inputs. -/
instance {ε α : Type} [DecidableEq ε] [DecidableEq α] : DecidableEq (Except ε α) := fun a b =>
  match a, b with
  | .error e1, .error e2 => decidable_of_iff (e1 = e2) (by simp)
  | .ok v1, .ok v2 => decidable_of_iff (v1 = v2) (by simp)
  | .error _, .ok _ => isFalse (by simp)
  | .ok _, .error _ => isFalse (by simp)

/-- Association-list lookup, modelling a read `m[k]` of a Go map. -/
def alookup {α : Type} (k : String) : List (String × α) → Option α
  | [] => none
  | (k', v) :: rest => if k' = k then some v else alookup k rest

/-- Association-list write `m[k] = v` of a Go map: replace the existing
entry for `k`, or append a fresh one. -/
def ainsert {α : Type} (k : String) (v : α) (l : List (String × α)) : List (String × α) :=
  if l.any (fun p => p.1 = k) then l.map (fun p => if p.1 = k then (k, v) else p)
  else l ++ [(k, v)]

/-- Association-list update of the entry at `k` (no-op when absent),
modelling in-place mutation through a map-held pointer. -/
def aupdate {α : Type} (k : String) (f : α → α) (l : List (String × α)) : List (String × α) :=
  l.map (fun p => if p.1 = k then (p.1, f p.2) else p)

/-- Association-list delete `delete(m, k)` of a Go map. -/
def aerase {α : Type} (k : String) (l : List (String × α)) : List (String × α) :=
  l.filter (fun p => p.1 ≠ k)

/-- Device status enum (pkg/models/device.go). -/
inductive DeviceStatus
  | unknown
  | online
  | offline
  | error
  | maintenance
  | connecting
deriving DecidableEq

/-- A live device session (models.DeviceSession, pkg/models/device.go).
Metadata values are modelled as strings, which is all the gateway stores
in them. -/
structure DeviceSession where
  deviceID : String
  sessionID : String
  streamID : Option String
  connectedAt : Nat
  lastHeartbeat : Nat
  metadata : List (String × String)
  isActive : Bool
deriving DecidableEq

/-- In-memory connection state (device.ConnectionStatus, part_001:102-119). -/
structure ConnectionStatus where
  connectionID : String
  deviceID : String
  sessionID : String
  streamID : Option String
  isConnected : Bool
  isHealthy : Bool
  connectedAt : Nat
  lastSeen : Nat
  lastHeartbeat : Nat
  messagesSent : Int
  messagesReceived : Int
  bytesSent : Int
  bytesReceived : Int
  lastError : Option String
  lastErrorAt : Nat
  metrics : List (String × String)
deriving DecidableEq

/-- The mutable maps held by device.ConnectionManager (part_001:122-135):
`connections` is keyed by device id, `sessions` by session id. -/
structure ConnMgrState where
  connections : List (String × ConnectionStatus)
  sessions : List (String × DeviceSession)
deriving DecidableEq

/-- The empty registry, as built by NewConnectionManager (part_001:138-153). -/
def emptyConnMgr : ConnMgrState := { connections := [], sessions := [] }

/-- heartbeatTimeout, 2 minutes in seconds (part_001:143). -/
def heartbeatTimeout : Nat := 120

/-- The one-hour horizon after which cleanup removes an entry (part_001:430). -/
def staleHorizon : Nat := 3600

/-- The fresh ConnectionStatus built by RegisterConnection (part_001:169-184). -/
def newConnectionStatus (connectionID : String) (now : Nat) (session : DeviceSession) :
    ConnectionStatus :=
  { connectionID := connectionID
    deviceID := session.deviceID
    sessionID := session.sessionID
    streamID := session.streamID
    isConnected := true
    isHealthy := true
    connectedAt := now
    lastSeen := now
    lastHeartbeat := now
    messagesSent := 0
    messagesReceived := 0
    bytesSent := 0
    bytesReceived := 0
    lastError := none
    lastErrorAt := 0
    metrics := [] }

/-- RegisterConnection (part_001:161-197): store the new connection status
under the device id and the session under its session id.  The prior
entries, if any, are simply overwritten / left in place. -/
def RegisterConnection (connectionID : String) (now : Nat) (session : DeviceSession)
    (cm : ConnMgrState) : ConnMgrState :=
  { connections := ainsert session.deviceID (newConnectionStatus connectionID now session)
      cm.connections
    sessions := ainsert session.sessionID session cm.sessions }

/-- UpdateHeartbeat (part_001:200-231).  Returns the error (if any) and the
registry state after the call; on a missing device the state is returned
untouched, matching the in-place Go code. -/
def UpdateHeartbeat (now : Nat) (deviceID : String) (metrics : List (String × String))
    (cm : ConnMgrState) : Option String × ConnMgrState :=
  match alookup deviceID cm.connections with
  | none => (some ("connection not found for device: " ++ deviceID), cm)
  | some _ =>
    let f := fun (c : ConnectionStatus) =>
      { c with lastHeartbeat := now, lastSeen := now, isHealthy := true,
               metrics := metrics.foldl (fun m p => ainsert p.1 p.2 m) c.metrics }
    (none, { cm with connections := aupdate deviceID f cm.connections })

/-- UpdateConnectionStats (part_001:234-250). -/
def UpdateConnectionStats (now : Nat) (deviceID : String)
    (messagesSent messagesReceived bytesSent bytesReceived : Int)
    (cm : ConnMgrState) : Option String × ConnMgrState :=
  match alookup deviceID cm.connections with
  | none => (some ("connection not found for device: " ++ deviceID), cm)
  | some _ =>
    let f := fun (c : ConnectionStatus) =>
      { c with messagesSent := c.messagesSent + messagesSent,
               messagesReceived := c.messagesReceived + messagesReceived,
               bytesSent := c.bytesSent + bytesSent,
               bytesReceived := c.bytesReceived + bytesReceived,
               lastSeen := now }
    (none, { cm with connections := aupdate deviceID f cm.connections })

/-- RecordConnectionError (part_001:253-274). -/
def RecordConnectionError (now : Nat) (deviceID : String) (errorMsg : String)
    (cm : ConnMgrState) : Option String × ConnMgrState :=
  match alookup deviceID cm.connections with
  | none => (some ("connection not found for device: " ++ deviceID), cm)
  | some _ =>
    let f := fun (c : ConnectionStatus) =>
      { c with lastError := some errorMsg, lastErrorAt := now, isHealthy := false }
    (none, { cm with connections := aupdate deviceID f cm.connections })

/-- DisconnectDevice (part_001:277-308): flags the connection disconnected
and unhealthy, records the reason as the last error, and removes the
paired session from the sessions map. -/
def DisconnectDevice (now : Nat) (deviceID reason : String)
    (cm : ConnMgrState) : Option String × ConnMgrState :=
  match alookup deviceID cm.connections with
  | none => (some ("connection not found for device: " ++ deviceID), cm)
  | some c0 =>
    let f := fun (c : ConnectionStatus) =>
      let c' := { c with isConnected := false, isHealthy := false, lastSeen := now }
      if reason ≠ "" then { c' with lastError := some reason, lastErrorAt := now } else c'
    (none,
     { connections := aupdate deviceID f cm.connections
       sessions := aerase c0.sessionID cm.sessions })

/-- The per-entry mutation performed by performCleanup (part_001:420-434):
an entry whose heartbeat is older than heartbeatTimeout and which is still
connected is demoted; all other entries are left as they are. -/
def cleanupStep (now : Nat) (c : ConnectionStatus) : ConnectionStatus :=
  if now - c.lastHeartbeat > heartbeatTimeout then
    if c.isConnected then { c with isConnected := false, isHealthy := false } else c
  else c

/-- The staleness test of performCleanup (part_001:422-433): no heartbeat
for longer than heartbeatTimeout and not seen for more than one hour. -/
def isStaleEntry (now : Nat) (c : ConnectionStatus) : Bool :=
  decide (now - c.lastHeartbeat > heartbeatTimeout) && decide (now - c.lastSeen > staleHorizon)

/-- performCleanup (part_001:412-454): demote heartbeat-stale entries and
drop the very old ones together with their sessions.  The function only
touches the two in-memory maps; ConnectionManager holds no repository. -/
def performCleanup (now : Nat) (cm : ConnMgrState) : ConnMgrState :=
  let updated := cm.connections.map (fun p => (p.1, cleanupStep now p.2))
  let staleSessionIDs := (updated.filter (fun p => isStaleEntry now p.2)).map
    (fun p => p.2.sessionID)
  { connections := updated.filter (fun p => !(isStaleEntry now p.2))
    sessions := cm.sessions.filter (fun p => !(staleSessionIDs.contains p.1)) }

/-- Alert severity enum (pkg/models/alert.go, part_007). -/
inductive AlertSeverity
  | info
  | warning
  | error
  | critical
deriving DecidableEq

/-- Alert type enum (pkg/models/alert.go, part_007). -/
inductive AlertType
  | deviceOffline
  | deviceError
  | commandTimeout
  | dataQuality
  | systemHealth
  | securityBreach
  | performance
deriving DecidableEq

/-- An alert row (models.Alert, part_007). -/
structure Alert where
  id : String
  deviceID : Option String
  type : AlertType
  severity : AlertSeverity
  message : String
  acknowledged : Bool
  acknowledgedAt : Option Nat
  acknowledgedBy : Option String
  createdAt : Nat
  resolvedAt : Option Nat
deriving DecidableEq

/-- The state the Supervisor tick can reach: the in-memory registry plus
the persisted device-status column and alert table.  The tick of the code
is performCleanup (part_001:406), driven by cleanupRoutine
(part_001:394-409); ConnectionManager holds no repository reference, so
the tick can only act on `registry`. -/
structure SupervisorWorld where
  registry : ConnMgrState
  deviceStatuses : List (String × DeviceStatus)
  alerts : List Alert
deriving DecidableEq

/-- One Supervisor tick (cleanupRoutine firing performCleanup,
part_001:394-409 and 412-454).  The persisted device statuses and the
alert table are untouched because performCleanup makes no repository
call. -/
def supervisorTick (now : Nat) (w : SupervisorWorld) : SupervisorWorld :=
  { w with registry := performCleanup now w.registry }

/-- Durable device row (models.Device, pkg/models/device.go; devices
table).  Metadata values are modelled as strings.  A timestamp of 0
models Go's zero time.Time. -/
structure Device where
  id : String
  name : String
  type : String
  version : String
  status : DeviceStatus
  metadata : List (String × String)
  capabilities : List String
  lastSeen : Option Nat
  registeredAt : Nat
  updatedAt : Nat
  createdAt : Nat
deriving DecidableEq

/-- determineActualDeviceStatus (part_003:122-151): derive the effective
status from the durable row and the optional registry entry. -/
def determineActualDeviceStatus (now : Nat) (device : Device)
    (connStatus : Option ConnectionStatus) : DeviceStatus :=
  match connStatus with
  | none =>
    match device.lastSeen with
    | some ls => if now - ls > 5 * 60 then .offline else device.status
    | none => device.status
  | some c =>
    if c.isConnected then
      if c.isHealthy then .online else .error
    else
      if now - c.lastSeen < 30 then .connecting else .offline

/-- Modelled from the spec (§4.5): the three-rule precedence for the
effective status, written from the spec's words for comparison with
determineActualDeviceStatus.
Rule 1: registry absent ⇒ offline when now − device.last_seen > 5 min,
else the stored device status.
Rule 2: registry present and connected ⇒ online when healthy else error.
Rule 3: registry present and not connected ⇒ connecting when
now − last-seen < 30 s, else offline. -/
def specEffectiveStatus (now : Nat) (device : Device)
    (entry : Option ConnectionStatus) : DeviceStatus :=
  match entry with
  | none =>
    if (match device.lastSeen with
        | some ls => decide (now - ls > 5 * 60)
        | none => false) then DeviceStatus.offline else device.status
  | some e =>
    if e.isConnected then
      if e.isHealthy then DeviceStatus.online else DeviceStatus.error
    else
      if now - e.lastSeen < 30 then DeviceStatus.connecting else DeviceStatus.offline

/-- Repository error values.  `notFound` is the sentinel
`repository.ErrNotFound` (part_009:251); `message` is an ad-hoc error
built with fmt.Errorf.  Go compares errors against the sentinel with
`==` (identity), which this equality models. -/
inductive RepoError
  | notFound
  | message (msg : String)
deriving DecidableEq

/-- Device.Validate (pkg/models/device.go:52-81).  The status check always
passes here because DeviceStatus is an enum in the embedding. -/
def deviceValidate (d : Device) : Option String :=
  if d.id = "" then some "device ID is required"
  else if d.name = "" then some "device name is required"
  else if d.type = "" then some "device type is required"
  else none

/-- deviceRepository.GetByID (part_008:79-119): an absent row yields the
ad-hoc error `device not found: <id>` built at part_008:106 — not the
sentinel repository.ErrNotFound. -/
def deviceRepoGetByID (tbl : List Device) (id : String) : Except RepoError Device :=
  match tbl.find? (fun d => d.id = id) with
  | none => .error (.message ("device not found: " ++ id))
  | some d => .ok d

/-- deviceRepository.Create (part_008:31-76): validate, default the zero
timestamps, stamp updated_at, and insert.  The devices table has
`id` as primary key (schema in part_005), so inserting a duplicate id is
the failure mode. -/
def deviceRepoCreate (now : Nat) (tbl : List Device) (d : Device) :
    Except RepoError (List Device) :=
  match deviceValidate d with
  | some e => .error (.message ("device validation failed: " ++ e))
  | none =>
    let d' := { d with registeredAt := if d.registeredAt = 0 then now else d.registeredAt,
                       createdAt := if d.createdAt = 0 then now else d.createdAt,
                       updatedAt := now }
    if tbl.any (fun x => x.id = d'.id) then
      .error (.message "failed to create device: duplicate key")
    else .ok (tbl ++ [d'])

/-- deviceRepository.Update (part_008:122-168): validate, stamp
updated_at, overwrite the row; zero rows affected is an error. -/
def deviceRepoUpdate (now : Nat) (tbl : List Device) (d : Device) :
    Except RepoError (List Device) :=
  match deviceValidate d with
  | some e => .error (.message ("device validation failed: " ++ e))
  | none =>
    let d' := { d with updatedAt := now }
    if tbl.any (fun x => x.id = d'.id) then
      .ok (tbl.map (fun x => if x.id = d'.id then d' else x))
    else .error (.message ("device not found: " ++ d'.id))

/-- deviceRepository.UpdateStatus (part_008:432-459). -/
def deviceRepoUpdateStatus (now : Nat) (tbl : List Device) (deviceID : String)
    (status : DeviceStatus) : Except RepoError (List Device) :=
  if tbl.any (fun x => x.id = deviceID) then
    .ok (tbl.map (fun x =>
      if x.id = deviceID then { x with status := status, updatedAt := now } else x))
  else .error (.message ("device not found: " ++ deviceID))

/-- strings.ToLower restricted to the ASCII strings the gateway
handles. -/
def toLowerStr (s : String) : String := String.mk (s.data.map Char.toLower)

/-- The whitespace class of strings.TrimSpace for the ASCII inputs the
gateway handles. -/
def isSpaceChar (c : Char) : Bool := c = ' ' || c = '\t' || c = '\n' || c = '\r'

/-- strings.TrimSpace restricted to ASCII whitespace. -/
def trimStr (s : String) : String :=
  String.mk (((s.data.dropWhile isSpaceChar).reverse.dropWhile isSpaceChar).reverse)

/-- The RegisterDevice RPC request (proto RegisterDeviceRequest). -/
structure RegisterDeviceRequest where
  deviceId : String
  name : String
  type : String
  version : String
  capabilities : List String
  metadata : List (String × String)
deriving DecidableEq

/-- The device-type vocabulary of validateRegisterDeviceRequest
(part_002:162-174). -/
def validDeviceTypes : List String :=
  ["sensor", "actuator", "analyzer", "controller", "spectrometer",
   "chromatograph", "microscope", "balance", "ph_meter", "thermometer", "other"]

/-- The capability vocabulary of validateRegisterDeviceRequest
(part_002:194-215). -/
def validCapabilityNames : List String :=
  ["temperature", "humidity", "pressure", "ph", "conductivity", "turbidity",
   "dissolved_oxygen", "flow_rate", "level", "weight", "vibration",
   "acceleration", "voltage", "current", "power", "frequency", "spectrum",
   "image", "control", "calibration"]

/-- validateRegisterDeviceRequest (part_002:134-236).  Returns the first
failing check's message, or none when the request is valid. -/
def validateRegisterDeviceRequest (req : RegisterDeviceRequest) : Option String :=
  if trimStr req.deviceId = "" then some "device_id is required"
  else if req.deviceId.length > 255 then some "device_id too long (max 255 characters)"
  else if trimStr req.name = "" then some "device name is required"
  else if req.name.length > 255 then some "device name too long (max 255 characters)"
  else if trimStr req.type = "" then some "device type is required"
  else if !(validDeviceTypes.contains (toLowerStr req.type)) then
    some ("invalid device type: " ++ req.type)
  else if trimStr req.version = "" then some "firmware version is required"
  else if req.version.length > 50 then some "firmware version too long (max 50 characters)"
  else if req.capabilities.length = 0 then some "at least one capability is required"
  else if req.capabilities.any (fun c => !(validCapabilityNames.contains (toLowerStr c))) then
    some "invalid capability"
  else if req.metadata.any (fun p => p.1.length > 100 || p.2.length > 1000) then
    some "metadata key or value too long"
  else none

/-- createDeviceFromRequest (part_002:239-268): a fresh device in status
connecting with normalized type and capabilities. -/
def createDeviceFromRequest (now : Nat) (req : RegisterDeviceRequest) : Device :=
  { id := req.deviceId
    name := trimStr req.name
    type := toLowerStr (trimStr req.type)
    version := trimStr req.version
    status := .connecting
    metadata := req.metadata
    capabilities := req.capabilities.map (fun c => toLowerStr (trimStr c))
    lastSeen := none
    registeredAt := now
    createdAt := now
    updatedAt := now }

/-- updateDeviceFromRequest (part_002:271-303): refresh the mutable
fields and reset an offline/error status to connecting. -/
def updateDeviceFromRequest (now : Nat) (device : Device)
    (req : RegisterDeviceRequest) : Device :=
  let d := { device with
    name := trimStr req.name
    type := toLowerStr (trimStr req.type)
    version := trimStr req.version
    updatedAt := now
    metadata := req.metadata.foldl (fun m p => ainsert p.1 p.2 m) device.metadata }
  let d := if req.capabilities.length > 0 then
      { d with capabilities := req.capabilities.map (fun c => toLowerStr (trimStr c)) }
    else d
  if d.status = DeviceStatus.offline || d.status = DeviceStatus.error then
    { d with status := .connecting }
  else d

/-- gRPC status codes used by the handlers. -/
inductive GrpcCode
  | invalidArgument
  | notFound
  | internal
deriving DecidableEq

/-- The RegisterDevice RPC response (part_002:125-130). -/
structure RegisterDeviceResponse where
  success : Bool
  message : String
  sessionId : String
  registeredAt : Nat
deriving DecidableEq

/-- The state RegisterDevice acts on: the devices table and the
connection registry. -/
structure GatewayState where
  devices : List Device
  registry : ConnMgrState
deriving DecidableEq

/-- The part of RegisterDevice after the existence lookup
(part_002:61-130): create or update the device row, allocate the session
(GenerateSessionID, part_001:156-158, with `sessionSuffix` standing for
the 8 random hex chars), register the connection, and set the device
status to online (a failure of this last persistence step is only
logged). -/
def registerDeviceCore (now : Nat) (sessionSuffix connectionID : String)
    (req : RegisterDeviceRequest) (existing : Option Device) (st : GatewayState) :
    Except GrpcCode (RegisterDeviceResponse × GatewayState) :=
  let persisted : Except RepoError (Device × List Device) :=
    match existing with
    | some d0 =>
      let d := updateDeviceFromRequest now d0 req
      (deviceRepoUpdate now st.devices d).map (fun tbl => ({ d with updatedAt := now }, tbl))
    | none =>
      let d := createDeviceFromRequest now req
      (deviceRepoCreate now st.devices d).map (fun tbl => (d, tbl))
  match persisted with
  | .error _ => .error .internal
  | .ok (device, tbl) =>
    let sessionID := req.deviceId ++ "-" ++ sessionSuffix
    let session : DeviceSession :=
      { deviceID := req.deviceId, sessionID := sessionID, streamID := none,
        connectedAt := now, lastHeartbeat := now, metadata := req.metadata,
        isActive := true }
    let registry' := RegisterConnection connectionID now session st.registry
    let tbl' := match deviceRepoUpdateStatus now tbl device.id DeviceStatus.online with
      | .ok t => t
      | .error _ => tbl
    let msg := if existing.isSome then "Device registration updated successfully"
      else "Device registered successfully"
    .ok ({ success := true, message := msg, sessionId := sessionID,
           registeredAt := device.registeredAt },
         { devices := tbl', registry := registry' })

/-- RegisterDevice (part_002:37-131): validate, look the device up with
deviceRepository.GetByID, tolerate only the sentinel
repository.ErrNotFound as "absent" (part_002:53), then create or update
and allocate the session. -/
def RegisterDevice (now : Nat) (sessionSuffix connectionID : String)
    (req : RegisterDeviceRequest) (st : GatewayState) :
    Except GrpcCode (RegisterDeviceResponse × GatewayState) :=
  match validateRegisterDeviceRequest req with
  | some _ => .error .invalidArgument
  | none =>
    match deviceRepoGetByID st.devices req.deviceId with
    | .error e =>
      if e = RepoError.notFound then
        registerDeviceCore now sessionSuffix connectionID req none st
      else .error .internal
    | .ok existing => registerDeviceCore now sessionSuffix connectionID req (some existing) st

/-- Command status enum (pkg/models/command.go). -/
inductive CommandStatus
  | unknown
  | pending
  | executing
  | completed
  | failed
  | timeout
  | cancelled
deriving DecidableEq

/-- A command row as the repository persists and reads it
(pkg/repository/command_repository.go; commands table in part_005).  The
JSON payloads `parameters` and `result` are kept as opaque strings.  The
submission timestamp that commandRepository persists and sorts on is the
created_at column (Command.SetDefaults stamps SubmittedAt and CreatedAt
with the same now, and the INSERT at command_repository.go:38-41 writes
created_at). -/
structure CommandRow where
  id : String
  commandID : String
  deviceID : String
  type : String
  parameters : String
  status : CommandStatus
  priority : Int
  timeoutSeconds : Int
  result : String
  errorMessage : Option String
  executedAt : Option Nat
  createdAt : Nat
  updatedAt : Nat
  expiresAt : Option Nat
deriving DecidableEq

/-- The WHERE clause of MarkExpiredAsTimeout and GetExpiredCommands
(command_repository.go:376 and 395): expires_at IS NOT NULL AND
expires_at <= NOW() AND status IN ('pending', 'executing'). -/
def isExpiredActive (now : Nat) (c : CommandRow) : Bool :=
  (match c.expiresAt with
   | some e => decide (e ≤ now)
   | none => false) &&
  (c.status = CommandStatus.pending || c.status = CommandStatus.executing)

/-- MarkExpiredAsTimeout (command_repository.go:391-416), per-row part:
set a selected row to status timeout with error_message 'Command expired'
and updated_at NOW(). -/
def markExpiredStep (now : Nat) (c : CommandRow) : CommandRow :=
  if isExpiredActive now c then
    { c with status := .timeout, errorMessage := some "Command expired", updatedAt := now }
  else c

/-- MarkExpiredAsTimeout continued: the UPDATE applies markExpiredStep to
every row; the rows-affected count is the number of selected rows. -/
def markExpiredAsTimeout (now : Nat) (tbl : List CommandRow) : List CommandRow × Nat :=
  (tbl.map (markExpiredStep now), (tbl.filter (isExpiredActive now)).length)

/-- The WHERE clause of GetPendingCommands (command_repository.go:302):
device_id = $1 AND status = 'pending' AND (expires_at IS NULL OR
expires_at > NOW()). -/
def pendingSel (now : Nat) (deviceID : String) (c : CommandRow) : Bool :=
  c.deviceID = deviceID && c.status = CommandStatus.pending &&
  (match c.expiresAt with
   | none => true
   | some e => decide (now < e))

/-- The ORDER BY of GetPendingCommands (command_repository.go:303):
priority DESC, created_at ASC. -/
def pendingOrder (a b : CommandRow) : Prop :=
  b.priority < a.priority ∨ (a.priority = b.priority ∧ a.createdAt ≤ b.createdAt)

instance : DecidableRel pendingOrder := fun a b => by
  unfold pendingOrder; infer_instance

instance : IsTotal CommandRow pendingOrder :=
  ⟨fun a b => by unfold pendingOrder; omega⟩

instance : IsTrans CommandRow pendingOrder :=
  ⟨fun a b c h1 h2 => by unfold pendingOrder at *; omega⟩

/-- GetPendingCommands (command_repository.go:297-314): the rows selected
by its WHERE clause, in the order of its ORDER BY. -/
def GetPendingCommands (now : Nat) (deviceID : String) (tbl : List CommandRow) :
    List CommandRow :=
  List.insertionSort pendingOrder (tbl.filter (pendingSel now deviceID))

/-- A measurement row (models.Measurement, pkg/models/measurement.go).
Quality is the string enum of the model; the double `value` payload is
opaque to every claim and is carried as an integer scalar. -/
structure Measurement where
  id : String
  deviceID : String
  timestamp : Nat
  type : String
  value : Int
  unit : String
  quality : String
  metadata : List (String × String)
  batchID : Option String
  sequenceNumber : Option Int
  createdAt : Nat
deriving DecidableEq

/-- The quality vocabulary of Measurement.Validate
(pkg/models/measurement.go). -/
def validQualityCodes : List String :=
  ["unknown", "good", "bad", "uncertain", "substituted"]

/-- Measurement.Validate (pkg/models/measurement.go:63-91). -/
def measurementValidate (m : Measurement) : Option String :=
  if m.deviceID = "" then some "device ID is required"
  else if m.type = "" then some "measurement type is required"
  else if m.timestamp = 0 then some "timestamp is required"
  else if !(validQualityCodes.contains m.quality) then
    some ("invalid quality code: " ++ m.quality)
  else none

/-- Measurement.SetDefaults (pkg/models/measurement.go:102-119). -/
def measurementSetDefaults (now : Nat) (m : Measurement) : Measurement :=
  let m := if m.quality = "" then { m with quality := "unknown" } else m
  let m := if m.timestamp = 0 then { m with timestamp := now } else m
  if m.createdAt = 0 then { m with createdAt := now } else m

/-- repository.BulkResult (part_009:332-337).  Errors are carried as
their messages. -/
structure BulkResult where
  successCount : Nat
  failureCount : Nat
  errors : List String
deriving DecidableEq

/-- One iteration of the measurement CreateBulk loop
(measurement_repository.go:157-194): a validation failure is recorded and
skipped; otherwise defaults are applied and the row is inserted, the
insert failing on a duplicate primary key (measurements.id, schema in
part_005). -/
def createBulkStep (now : Nat) (acc : BulkResult × List Measurement) (m : Measurement) :
    BulkResult × List Measurement :=
  let res := acc.1
  let store := acc.2
  match measurementValidate m with
  | some e =>
    ({ res with failureCount := res.failureCount + 1,
                errors := res.errors ++ ["measurement validation failed: " ++ e] }, store)
  | none =>
    let m' := measurementSetDefaults now m
    if store.any (fun x => x.id = m'.id) then
      ({ res with failureCount := res.failureCount + 1,
                  errors := res.errors ++ ["failed to insert measurement: duplicate key"] },
       store)
    else
      ({ res with successCount := res.successCount + 1 }, store ++ [m'])

/-- measurementRepository.CreateBulk (measurement_repository.go:133-206):
process every item in order, never aborting on a per-item failure, and
return the counts, the per-item errors, and the table after commit. -/
def CreateBulk (now : Nat) (store : List Measurement) (ms : List Measurement) :
    BulkResult × List Measurement :=
  ms.foldl (createBulkStep now) ({ successCount := 0, failureCount := 0, errors := [] }, store)

/-- The pagination cursor (handlers.PageToken, part_002:1060-1064).  The
Go field is an int; every cursor the pagination emits carries a
non-negative offset, so it is carried as Nat. -/
structure PageToken where
  offset : Nat
  sortBy : String
  order : String
deriving DecidableEq

/-- The base64url alphabet (encoding/base64.URLEncoding): sextet value to
byte. -/
def b64Char (v : Nat) : Nat :=
  if v < 26 then 65 + v
  else if v < 52 then 97 + (v - 26)
  else if v < 62 then 48 + (v - 52)
  else if v = 62 then 45
  else 95

/-- Inverse of the base64url alphabet: byte to sextet value, none for a
byte outside the alphabet (the padding byte 61, '=', included). -/
def b64Val (b : Nat) : Option Nat :=
  if 65 ≤ b ∧ b ≤ 90 then some (b - 65)
  else if 97 ≤ b ∧ b ≤ 122 then some (b - 97 + 26)
  else if 48 ≤ b ∧ b ≤ 57 then some (b - 48 + 52)
  else if b = 45 then some 62
  else if b = 95 then some 63
  else none

/-- base64.URLEncoding.EncodeToString over a byte list: groups of three
bytes become four alphabet bytes, a final group of one or two is padded
with '=' (byte 61). -/
def b64Encode : List Nat → List Nat
  | [] => []
  | [b0] => [b64Char (b0 / 4), b64Char (b0 % 4 * 16), 61, 61]
  | [b0, b1] => [b64Char (b0 / 4), b64Char (b0 % 4 * 16 + b1 / 16), b64Char (b1 % 16 * 4), 61]
  | b0 :: b1 :: b2 :: rest =>
    b64Char (b0 / 4) :: b64Char (b0 % 4 * 16 + b1 / 16) ::
    b64Char (b1 % 16 * 4 + b2 / 64) :: b64Char (b2 % 64) :: b64Encode rest

/-- base64.URLEncoding.DecodeString over a byte list: length must be a
multiple of four, padding may only close the final group, bytes outside
the alphabet are rejected. -/
def b64Decode : List Nat → Option (List Nat)
  | [] => some []
  | c1 :: c2 :: c3 :: c4 :: rest =>
    match b64Val c1, b64Val c2 with
    | some v1, some v2 =>
      if c3 = 61 then
        if c4 = 61 ∧ rest = [] then some [v1 * 4 + v2 / 16] else none
      else
        match b64Val c3 with
        | some v3 =>
          if c4 = 61 then
            if rest = [] then some [v1 * 4 + v2 / 16, v2 % 16 * 16 + v3 / 4] else none
          else
            match b64Val c4 with
            | some v4 =>
              match b64Decode rest with
              | some tail =>
                some ((v1 * 4 + v2 / 16) :: (v2 % 16 * 16 + v3 / 4) ::
                      (v3 % 4 * 64 + v4) :: tail)
              | none => none
            | none => none
        | none => none
    | _, _ => none
  | _ => none

/-- The decimal ASCII bytes of a natural number, most significant digit
first, as strconv/json print it. -/
def natDigitBytes (n : Nat) : List Nat :=
  if n = 0 then [48] else (Nat.digits 10 n).reverse.map (fun d => d + 48)

/-- The UTF-8 bytes of an ASCII string. -/
def strBytes (s : String) : List Nat := s.data.map Char.toNat

/-- The bytes of the text left-brace `"offset":` (the opening of the JSON
object json.Marshal produces for PageToken). -/
def jsonKeyOffset : List Nat := [123, 34, 111, 102, 102, 115, 101, 116, 34, 58]

/-- The bytes of the text `,"sort_by":"` including the opening quote of
the value. -/
def jsonKeySortBy : List Nat := [44, 34, 115, 111, 114, 116, 95, 98, 121, 34, 58, 34]

/-- The bytes of the text `,"order":"` including the opening quote of the
value. -/
def jsonKeyOrder : List Nat := [44, 34, 111, 114, 100, 101, 114, 34, 58, 34]

/-- json.Marshal of a PageToken (part_002:1302): the canonical object
with the three fields in struct order and no whitespace. -/
def jsonBytesOfPageToken (t : PageToken) : List Nat :=
  jsonKeyOffset ++ (natDigitBytes t.offset ++ (jsonKeySortBy ++ (strBytes t.sortBy ++
    (34 :: (jsonKeyOrder ++ (strBytes t.order ++ [34, 125]))))))

/-- Expect the given leading bytes and return the remainder. -/
def stripBytes (pre l : List Nat) : Option (List Nat) :=
  match pre, l with
  | [], rest => some rest
  | p :: ps, b :: bs => if b = p then stripBytes ps bs else none
  | _ :: _, [] => none

/-- An ASCII decimal digit byte. -/
def isDigitByte (b : Nat) : Bool := 48 ≤ b && b ≤ 57

/-- Read a non-empty run of decimal digits as a Nat. -/
def readNat (l : List Nat) : Option (Nat × List Nat) :=
  if (l.takeWhile isDigitByte).isEmpty then none
  else some ((l.takeWhile isDigitByte).foldl (fun a d => a * 10 + (d - 48)) 0,
             l.dropWhile isDigitByte)

/-- Read a quote-free JSON string value up to and including its closing
quote (byte 34). -/
def readUntilQuote (l : List Nat) : Option (List Nat × List Nat) :=
  match l.dropWhile (fun b => b ≠ 34) with
  | b :: rest => if b = 34 then some (l.takeWhile (fun b => b ≠ 34), rest) else none
  | [] => none

/-- json.Unmarshal into a PageToken (part_002:1287), modelled on the
canonical object layout json.Marshal produces; any deviation is a parse
error. -/
def parseJsonPageToken (l : List Nat) : Option PageToken :=
  match stripBytes jsonKeyOffset l with
  | none => none
  | some l1 =>
  match readNat l1 with
  | none => none
  | some (off, l2) =>
  match stripBytes jsonKeySortBy l2 with
  | none => none
  | some l3 =>
  match readUntilQuote l3 with
  | none => none
  | some (sb, l4) =>
  match stripBytes jsonKeyOrder l4 with
  | none => none
  | some l5 =>
  match readUntilQuote l5 with
  | none => none
  | some (ob, l6) =>
  if l6 = [125] then
    some { offset := off, sortBy := String.mk (sb.map Char.ofNat),
           order := String.mk (ob.map Char.ofNat) }
  else none

/-- generatePageToken (part_002:1295-1304): json.Marshal then
base64.URLEncoding.EncodeToString. -/
def generatePageToken (t : PageToken) : String :=
  String.mk ((b64Encode (jsonBytesOfPageToken t)).map Char.ofNat)

/-- parsePageToken (part_002:1278-1292): base64-decode, JSON-unmarshal,
and return the offset. -/
def parsePageToken (token : String) : Option Nat :=
  match b64Decode (strBytes token) with
  | none => none
  | some bytes => (parseJsonPageToken bytes).map (fun t => t.offset)

/-- The handler's use of parsePageToken in ListDevices
(part_002:1082-1090): a non-empty token that fails to parse is rejected
with InvalidArgument. -/
def parsePageTokenHandler (token : String) : Except GrpcCode Nat :=
  if token = "" then .ok 0
  else
    match parsePageToken token with
    | none => .error .invalidArgument
    | some off => .ok off

/-! Theorems. -/

/-- C5: for every device record and every optional registry entry,
get-device-status derives the effective status exactly by the three-rule
precedence of §4.5: determineActualDeviceStatus agrees with the rules as
written in the spec. -/
theorem determineActualDeviceStatus_matches_spec (now : Nat) (device : Device)
    (entry : Option ConnectionStatus) :
    determineActualDeviceStatus now device entry = specEffectiveStatus now device entry := by
  cases entry with
  | none =>
    simp only [determineActualDeviceStatus, specEffectiveStatus]
    cases device.lastSeen <;> simp
  | some e => rfl

/-- A row rewritten by markExpiredStep is never selected again: either it
was just moved to status timeout, or it was not selected to begin
with. -/
theorem isExpiredActive_markExpiredStep (now : Nat) (c : CommandRow) :
    isExpiredActive now (markExpiredStep now c) = false := by
  unfold markExpiredStep
  split
  · simp [isExpiredActive]
  · next h => exact Bool.not_eq_true _ ▸ h

/-- markExpiredStep is idempotent on a row. -/
theorem markExpiredStep_idem (now : Nat) (c : CommandRow) :
    markExpiredStep now (markExpiredStep now c) = markExpiredStep now c := by
  have h := isExpiredActive_markExpiredStep now c
  unfold markExpiredStep at h ⊢
  split <;> simp_all [markExpiredStep]

/-- C6: mark-expired-as-timeout transitions exactly the rows that are
pending or executing with expires-at ≤ now (each such row reappears with
status timeout and the terminal message, every other row is untouched,
and the affected count is the number of selected rows), and a second run
on the resulting table changes nothing and reports zero transitions. -/
theorem markExpiredAsTimeout_correct (now : Nat) (tbl : List CommandRow) :
    (markExpiredAsTimeout now tbl).2 = (tbl.filter (isExpiredActive now)).length
  ∧ (∀ c ∈ tbl, isExpiredActive now c = true →
      { c with status := CommandStatus.timeout, errorMessage := some "Command expired",
               updatedAt := now } ∈ (markExpiredAsTimeout now tbl).1)
  ∧ (∀ c ∈ tbl, isExpiredActive now c = false → c ∈ (markExpiredAsTimeout now tbl).1)
  ∧ (∀ c ∈ (markExpiredAsTimeout now tbl).1, isExpiredActive now c = false)
  ∧ markExpiredAsTimeout now ((markExpiredAsTimeout now tbl).1) =
      ((markExpiredAsTimeout now tbl).1, 0) := by
  refine ⟨rfl, ?_, ?_, ?_, ?_⟩
  · intro c hc hsel
    simp only [markExpiredAsTimeout, List.mem_map]
    exact ⟨c, hc, by simp [markExpiredStep, hsel]⟩
  · intro c hc hsel
    simp only [markExpiredAsTimeout, List.mem_map]
    exact ⟨c, hc, by simp [markExpiredStep, hsel]⟩
  · intro c hc
    simp only [markExpiredAsTimeout, List.mem_map] at hc
    obtain ⟨c', _, rfl⟩ := hc
    exact isExpiredActive_markExpiredStep now c'
  · have h1 : List.map (markExpiredStep now) (List.map (markExpiredStep now) tbl) =
        List.map (markExpiredStep now) tbl := by
      rw [List.map_map]
      exact List.map_congr_left (fun c _ => markExpiredStep_idem now c)
    have h2 : (List.map (markExpiredStep now) tbl).filter (isExpiredActive now) = [] := by
      rw [List.filter_eq_nil_iff]
      intro c hc
      simp only [List.mem_map] at hc
      obtain ⟨c', _, rfl⟩ := hc
      simp [isExpiredActive_markExpiredStep]
    simp [markExpiredAsTimeout, h1, h2]

/-- C10: each of update-heartbeat, update-stats, record-error and
disconnect, invoked for a device id absent from the registry, returns the
`connection not found` error and leaves the registry state untouched. -/
theorem registry_mutators_missing_id (now : Nat) (d msg : String)
    (metrics : List (String × String)) (a b c e : Int) (cm : ConnMgrState)
    (h : alookup d cm.connections = none) :
    UpdateHeartbeat now d metrics cm = (some ("connection not found for device: " ++ d), cm)
  ∧ UpdateConnectionStats now d a b c e cm =
      (some ("connection not found for device: " ++ d), cm)
  ∧ RecordConnectionError now d msg cm = (some ("connection not found for device: " ++ d), cm)
  ∧ DisconnectDevice now d msg cm = (some ("connection not found for device: " ++ d), cm) := by
  refine ⟨?_, ?_, ?_, ?_⟩ <;>
    simp [UpdateHeartbeat, UpdateConnectionStats, RecordConnectionError, DisconnectDevice, h]

/-- Witness for C10 at a concrete registry: the empty registry has no
entry for device `dx`, and UpdateHeartbeat errors and leaves it
unchanged. -/
theorem registry_mutators_missing_id_witness :
    UpdateHeartbeat 5 "dx" [] emptyConnMgr =
      (some ("connection not found for device: " ++ "dx"), emptyConnMgr) :=
  (registry_mutators_missing_id 5 "dx" "m" [] 0 0 0 0 emptyConnMgr (by rfl)).1

/-- Witness for C6 at a concrete table: of two rows, only the expired
pending one is transitioned. -/
theorem markExpiredAsTimeout_correct_witness :
    (markExpiredAsTimeout 5 [
      { id := "i1", commandID := "c1", deviceID := "d1", type := "calibrate",
        parameters := "", status := .pending, priority := 1, timeoutSeconds := 30,
        result := "", errorMessage := none, executedAt := none, createdAt := 0,
        updatedAt := 0, expiresAt := some 3 },
      { id := "i2", commandID := "c2", deviceID := "d1", type := "calibrate",
        parameters := "", status := .completed, priority := 1, timeoutSeconds := 30,
        result := "", errorMessage := none, executedAt := none, createdAt := 0,
        updatedAt := 0, expiresAt := some 3 }]).2 = 1 := by
  have h := markExpiredAsTimeout_correct 5 [
      { id := "i1", commandID := "c1", deviceID := "d1", type := "calibrate",
        parameters := "", status := .pending, priority := 1, timeoutSeconds := 30,
        result := "", errorMessage := none, executedAt := none, createdAt := 0,
        updatedAt := 0, expiresAt := some 3 },
      { id := "i2", commandID := "c2", deviceID := "d1", type := "calibrate",
        parameters := "", status := .completed, priority := 1, timeoutSeconds := 30,
        result := "", errorMessage := none, executedAt := none, createdAt := 0,
        updatedAt := 0, expiresAt := some 3 }]
  exact h.1.trans (by decide)

/-- Lookup after the map-replace branch of ainsert: the key being written
is found with the new value, provided it occurs in the list. -/
theorem alookup_map_replace {α : Type} (k : String) (v : α) (l : List (String × α))
    (h : l.any (fun p => p.1 = k) = true) :
    alookup k (l.map (fun p => if p.1 = k then (k, v) else p)) = some v := by
  induction l with
  | nil => simp at h
  | cons p t ih =>
    simp only [List.map_cons]
    by_cases hp : p.1 = k
    · rw [if_pos hp]
      simp [alookup]
    · have ht : t.any (fun p => p.1 = k) = true := by
        simp only [List.any_cons, Bool.or_eq_true, decide_eq_true_eq] at h
        rcases h with h | h
        · exact absurd h hp
        · exact h
      rw [if_neg hp]
      simp only [alookup]
      rw [if_neg hp]
      exact ih ht

/-- Lookup of a different key is unchanged by the map-replace branch of
ainsert. -/
theorem alookup_map_replace_ne {α : Type} (k k' : String) (v : α) (l : List (String × α))
    (hne : k' ≠ k) :
    alookup k' (l.map (fun p => if p.1 = k then (k, v) else p)) = alookup k' l := by
  induction l with
  | nil => rfl
  | cons p t ih =>
    have hk : ¬ (k = k') := fun he => hne he.symm
    simp only [List.map_cons]
    by_cases hp : p.1 = k
    · rw [if_pos hp]
      simp only [alookup]
      rw [if_neg hk, if_neg (hp ▸ hk)]
      exact ih
    · rw [if_neg hp]
      simp only [alookup]
      by_cases hp' : p.1 = k'
      · rw [if_pos hp', if_pos hp']
      · rw [if_neg hp', if_neg hp']
        exact ih

/-- Lookup after appending a fresh pair: the fresh key is found when it
did not occur before. -/
theorem alookup_append_fresh {α : Type} (k : String) (v : α) (l : List (String × α))
    (h : l.any (fun p => p.1 = k) = false) :
    alookup k (l ++ [(k, v)]) = some v := by
  induction l with
  | nil => simp [alookup]
  | cons p t ih =>
    simp only [List.any_cons, Bool.or_eq_false_iff, decide_eq_false_iff_not] at h
    simp [alookup, h.1, ih h.2]

/-- Lookup of a different key is unchanged by appending a fresh pair. -/
theorem alookup_append_ne {α : Type} (k k' : String) (v : α) (l : List (String × α))
    (hne : k' ≠ k) :
    alookup k' (l ++ [(k, v)]) = alookup k' l := by
  induction l with
  | nil =>
    simp only [List.nil_append, alookup]
    rw [if_neg (fun he => hne he.symm)]
  | cons p t ih =>
    simp only [List.cons_append, alookup]
    by_cases hp : p.1 = k'
    · rw [if_pos hp, if_pos hp]
    · rw [if_neg hp, if_neg hp]
      exact ih

/-- Writing key `k` makes it readable with the written value. -/
theorem alookup_ainsert_self {α : Type} (k : String) (v : α) (l : List (String × α)) :
    alookup k (ainsert k v l) = some v := by
  unfold ainsert
  split
  · next h => exact alookup_map_replace k v l h
  · next h => exact alookup_append_fresh k v l (Bool.eq_false_iff.mpr h)

/-- Writing key `k` leaves every other key's lookup unchanged. -/
theorem alookup_ainsert_ne {α : Type} (k k' : String) (v : α) (l : List (String × α))
    (hne : k' ≠ k) :
    alookup k' (ainsert k v l) = alookup k' l := by
  unfold ainsert
  split
  · exact alookup_map_replace_ne k k' v l hne
  · exact alookup_append_ne k k' v l hne

/-- The two sessions used to exercise re-registration. -/
def c2SessionA : DeviceSession :=
  { deviceID := "d1", sessionID := "d1-aaaa1111", streamID := none, connectedAt := 0,
    lastHeartbeat := 0, metadata := [], isActive := true }

/-- A later session for the same device. -/
def c2SessionB : DeviceSession :=
  { c2SessionA with sessionID := "d1-bbbb2222", connectedAt := 5, lastHeartbeat := 5 }

/-- The registry after registering c2SessionA and then c2SessionB for the
same device. -/
def c2State : ConnMgrState :=
  RegisterConnection "conn-2" 5 c2SessionB (RegisterConnection "conn-1" 0 c2SessionA emptyConnMgr)

/-- C2, counterexample: after a second registration for device d1, the
prior session is still in the sessions map, still marked active — it was
not marked inactive or closed with reason "superseded" — so two active
sessions for d1 coexist in the registry. -/
theorem register_supersede_counterexample :
    alookup "d1-aaaa1111" c2State.sessions = some c2SessionA
  ∧ c2SessionA.isActive = true
  ∧ (c2State.sessions.filter (fun p => p.2.deviceID = "d1" && p.2.isActive)).length = 2 := by
  decide

/-- C2, as amended: register overwrites the device's ConnectionState (so
the connections map keeps one entry per device id), but it does not touch
the prior session: any session stored under a different session id —
active or not — is still found unchanged afterwards. -/
theorem registerConnection_overwrites_connection_keeps_sessions
    (connectionID : String) (now : Nat) (s : DeviceSession) (cm : ConnMgrState)
    (sid : String) (old : DeviceSession)
    (hOld : alookup sid cm.sessions = some old) (hNe : sid ≠ s.sessionID) :
    alookup s.deviceID (RegisterConnection connectionID now s cm).connections =
      some (newConnectionStatus connectionID now s)
  ∧ alookup sid (RegisterConnection connectionID now s cm).sessions = some old := by
  constructor
  · exact alookup_ainsert_self s.deviceID _ cm.connections
  · rw [show (RegisterConnection connectionID now s cm).sessions =
        ainsert s.sessionID s cm.sessions from rfl]
    rw [alookup_ainsert_ne s.sessionID sid s cm.sessions hNe]
    exact hOld

/-- Witness for the amended C2 at the concrete two-registration run: the
prior session of device d1 is still readable unchanged. -/
theorem registerConnection_overwrites_witness :
    alookup "d1-aaaa1111" c2State.sessions = some c2SessionA :=
  (registerConnection_overwrites_connection_keeps_sessions "conn-2" 5 c2SessionB
    (RegisterConnection "conn-1" 0 c2SessionA emptyConnMgr) "d1-aaaa1111" c2SessionA
    (by decide) (by decide)).2

/-- Lookup through performCleanup: the first entry for a device maps
pointwise through cleanupStep and survives when the updated entry is not
stale. -/
theorem alookup_performCleanup (now : Nat) (d : String)
    (l : List (String × ConnectionStatus)) (c : ConnectionStatus)
    (h : alookup d l = some c)
    (hkeep : isStaleEntry now (cleanupStep now c) = false) :
    alookup d ((l.map (fun p => (p.1, cleanupStep now p.2))).filter
        (fun p => !(isStaleEntry now p.2))) = some (cleanupStep now c) := by
  induction l with
  | nil => simp [alookup] at h
  | cons p t ih =>
    by_cases hp : p.1 = d
    · have hpc : p.2 = c := by
        simp only [alookup] at h
        rw [if_pos hp] at h
        exact Option.some.injEq _ _ ▸ h
      subst hpc
      simp only [List.map_cons, List.filter_cons]
      rw [if_pos (by simpa using hkeep)]
      simp only [alookup]
      rw [if_pos hp]
    · have ht : alookup d t = some c := by
        simp only [alookup] at h
        rw [if_neg hp] at h
        exact h
      simp only [List.map_cons, List.filter_cons]
      by_cases hst : isStaleEntry now (cleanupStep now p.2) = true
      · rw [if_neg (by simp [hst])]
        exact ih ht
      · rw [if_pos (by simpa using Bool.eq_false_iff.mpr hst)]
        simp only [alookup]
        rw [if_neg hp]
        exact ih ht

/-- A concrete world for the Supervisor-tick counterexample: one
registered, still-connected device whose heartbeat is stale, a device row
marked online, no alerts. -/
def c3World : SupervisorWorld :=
  { registry :=
      { connections := [("d1",
          newConnectionStatus "conn-1" 0
            { deviceID := "d1", sessionID := "d1-aaaa1111", streamID := none,
              connectedAt := 0, lastHeartbeat := 0, metadata := [], isActive := true })]
        sessions := [("d1-aaaa1111",
          { deviceID := "d1", sessionID := "d1-aaaa1111", streamID := none,
            connectedAt := 0, lastHeartbeat := 0, metadata := [], isActive := true })] }
    deviceStatuses := [("d1", .online)]
    alerts := [] }

/-- C3, counterexample: at a tick 121 s after the last heartbeat (older
than heartbeat_timeout = 120 s), the registry entry for d1 is demoted to
is-connected = false and is-healthy = false, yet the persisted device
status is still online — not offline — and no device_offline alert was
emitted: the tick performs no persistence update and no alert
emission. -/
theorem supervisorTick_counterexample :
    ((supervisorTick 121 c3World).registry.connections.map
        (fun p => (p.1, p.2.isConnected, p.2.isHealthy))) = [("d1", false, false)]
  ∧ alookup "d1" (supervisorTick 121 c3World).deviceStatuses = some DeviceStatus.online
  ∧ (supervisorTick 121 c3World).alerts = [] := by
  decide

/-- C3, as amended: for a registry entry whose heartbeat is older than
heartbeat_timeout, which is still connected and whose last-seen is within
the one-hour stale horizon, the tick marks it is-connected = false and
is-healthy = false; the tick changes neither the persisted device
statuses nor the alert table (performCleanup makes no repository
call). -/
theorem supervisorTick_demotes_without_persistence (now : Nat) (w : SupervisorWorld)
    (d : String) (c : ConnectionStatus)
    (hc : alookup d w.registry.connections = some c)
    (hhb : now - c.lastHeartbeat > heartbeatTimeout)
    (hconn : c.isConnected = true)
    (hseen : now - c.lastSeen ≤ staleHorizon) :
    alookup d (supervisorTick now w).registry.connections =
      some { c with isConnected := false, isHealthy := false }
  ∧ (supervisorTick now w).deviceStatuses = w.deviceStatuses
  ∧ (supervisorTick now w).alerts = w.alerts := by
  have hstep : cleanupStep now c = { c with isConnected := false, isHealthy := false } := by
    unfold cleanupStep
    rw [if_pos hhb, if_pos hconn]
  have hkeep : isStaleEntry now (cleanupStep now c) = false := by
    rw [hstep]
    unfold isStaleEntry
    simp only [Bool.and_eq_false_imp]
    intro _
    simpa using Nat.not_lt.mpr hseen
  refine ⟨?_, rfl, rfl⟩
  have h := alookup_performCleanup now d w.registry.connections c hc hkeep
  rw [hstep] at h
  exact h

/-- Witness for the amended C3 at the concrete world: the d1 entry comes
back demoted and the world's persistent parts are unchanged. -/
theorem supervisorTick_demotes_witness :
    alookup "d1" (supervisorTick 121 c3World).registry.connections ≠ none := by
  have h := supervisorTick_demotes_without_persistence 121 c3World "d1"
    (newConnectionStatus "conn-1" 0
      { deviceID := "d1", sessionID := "d1-aaaa1111", streamID := none,
        connectedAt := 0, lastHeartbeat := 0, metadata := [], isActive := true })
    (by decide) (by decide) (by decide) (by decide)
  rw [h.1]
  exact fun he => Option.noConfusion he

/-- One registry operation, carrying the arguments of the corresponding
ConnectionManager method (the supervisor cleanup included). -/
inductive RegOp
  | register (connectionID : String) (now : Nat) (session : DeviceSession)
  | heartbeat (now : Nat) (deviceID : String) (metrics : List (String × String))
  | stats (now : Nat) (deviceID : String) (ms mr bs br : Int)
  | recordError (now : Nat) (deviceID : String) (msg : String)
  | disconnect (now : Nat) (deviceID : String) (reason : String)
  | cleanup (now : Nat)
deriving DecidableEq

/-- Apply one registry operation (the mutators' returned state; errors
leave the state unchanged). -/
def applyOp (cm : ConnMgrState) : RegOp → ConnMgrState
  | .register cid now s => RegisterConnection cid now s cm
  | .heartbeat now d m => (UpdateHeartbeat now d m cm).2
  | .stats now d a b c e => (UpdateConnectionStats now d a b c e cm).2
  | .recordError now d msg => (RecordConnectionError now d msg cm).2
  | .disconnect now d r => (DisconnectDevice now d r cm).2
  | .cleanup now => performCleanup now cm

/-- Apply a sequence of registry operations to the empty registry. -/
def applyOps (ops : List RegOp) : ConnMgrState := ops.foldl applyOp emptyConnMgr

/-- The is-healthy ⇒ is-connected invariant over every registry entry. -/
def RegistryInv (cm : ConnMgrState) : Prop :=
  ∀ p ∈ cm.connections, p.2.isHealthy = true → p.2.isConnected = true

instance : DecidablePred RegistryInv := fun cm => by
  unfold RegistryInv
  infer_instance

/-- C4, counterexample: the state reached from the empty registry by
register d1, disconnect d1, update-heartbeat d1 violates
is-healthy ⇒ is-connected — UpdateHeartbeat sets is-healthy without
restoring is-connected (part_001:212). -/
theorem registry_health_inv_counterexample :
    ¬ RegistryInv (applyOps [
      RegOp.register "conn-1" 0
        { deviceID := "d1", sessionID := "d1-aaaa1111", streamID := none,
          connectedAt := 0, lastHeartbeat := 0, metadata := [], isActive := true },
      RegOp.disconnect 1 "d1" "stream closed",
      RegOp.heartbeat 2 "d1" []]) := by
  decide

/-- Membership after ainsert: an entry of the result is the written pair
or an entry of the original list. -/
theorem mem_ainsert {α : Type} {q : String × α} {k : String} {v : α}
    {l : List (String × α)} (hq : q ∈ ainsert k v l) : q = (k, v) ∨ q ∈ l := by
  unfold ainsert at hq
  split at hq
  · rw [List.mem_map] at hq
    obtain ⟨p, hp, he⟩ := hq
    by_cases h1 : p.1 = k
    · rw [if_pos h1] at he
      exact Or.inl he.symm
    · rw [if_neg h1] at he
      exact Or.inr (he ▸ hp)
  · rw [List.mem_append] at hq
    rcases hq with hq | hq
    · exact Or.inr hq
    · simp only [List.mem_singleton] at hq
      exact Or.inl hq

/-- Membership after aupdate: an entry of the result is an updated entry
whose key matched, or an untouched entry of the original list. -/
theorem mem_aupdate {α : Type} {q : String × α} {k : String} {f : α → α}
    {l : List (String × α)} (hq : q ∈ aupdate k f l) :
    (∃ p, p ∈ l ∧ p.1 = k ∧ q = (p.1, f p.2)) ∨ q ∈ l := by
  unfold aupdate at hq
  rw [List.mem_map] at hq
  obtain ⟨p, hp, he⟩ := hq
  by_cases h1 : p.1 = k
  · rw [if_pos h1] at he
    exact Or.inl ⟨p, hp, h1, he.symm⟩
  · rw [if_neg h1] at he
    exact Or.inr (he ▸ hp)

/-- The guard under which the amended C4 holds: update-heartbeat may only
target entries that are still connected; every other operation is
unrestricted. -/
def opSafe (cm : ConnMgrState) : RegOp → Prop
  | .heartbeat _ d _ => ∀ p ∈ cm.connections, p.1 = d → p.2.isConnected = true
  | _ => True

instance : ∀ (cm : ConnMgrState) (op : RegOp), Decidable (opSafe cm op) := fun cm op => by
  cases op <;> (unfold opSafe; infer_instance)

/-- C4, as amended: is-healthy ⇒ is-connected is preserved by register,
update-stats, record-error, disconnect and the supervisor cleanup, and by
update-heartbeat whenever the targeted entry is still connected; only
update-heartbeat on a disconnected entry can break it. -/
theorem registry_health_inv_preserved (cm : ConnMgrState) (op : RegOp)
    (hInv : RegistryInv cm) (hSafe : opSafe cm op) :
    RegistryInv (applyOp cm op) := by
  cases op with
  | register cid now s =>
    intro q hq _
    rcases mem_ainsert hq with hq | hq
    · rw [hq]
      rfl
    · exact hInv q hq (by assumption)
  | heartbeat now d m =>
    intro q hq hqh
    simp only [applyOp, UpdateHeartbeat] at hq
    rcases hl : alookup d cm.connections with _ | c0
    · rw [hl] at hq
      exact hInv q hq hqh
    · rw [hl] at hq
      simp only at hq
      rcases mem_aupdate hq with ⟨p, hp, hpk, hqe⟩ | hq
      · rw [hqe]
        exact hSafe p hp hpk
      · exact hInv q hq hqh
  | stats now d a b c e =>
    intro q hq hqh
    simp only [applyOp, UpdateConnectionStats] at hq
    rcases hl : alookup d cm.connections with _ | c0
    · rw [hl] at hq
      exact hInv q hq hqh
    · rw [hl] at hq
      simp only at hq
      rcases mem_aupdate hq with ⟨p, hp, _, hqe⟩ | hq
      · rw [hqe] at hqh ⊢
        exact hInv p hp hqh
      · exact hInv q hq hqh
  | recordError now d msg =>
    intro q hq hqh
    simp only [applyOp, RecordConnectionError] at hq
    rcases hl : alookup d cm.connections with _ | c0
    · rw [hl] at hq
      exact hInv q hq hqh
    · rw [hl] at hq
      simp only at hq
      rcases mem_aupdate hq with ⟨p, hp, _, hqe⟩ | hq
      · rw [hqe] at hqh
        simp at hqh
      · exact hInv q hq hqh
  | disconnect now d r =>
    intro q hq hqh
    simp only [applyOp, DisconnectDevice] at hq
    rcases hl : alookup d cm.connections with _ | c0
    · rw [hl] at hq
      exact hInv q hq hqh
    · rw [hl] at hq
      simp only at hq
      rcases mem_aupdate hq with ⟨p, hp, _, hqe⟩ | hq
      · rw [hqe] at hqh
        by_cases hr : r ≠ ""
        · simp [hr] at hqh
        · simp [hr] at hqh
      · exact hInv q hq hqh
  | cleanup now =>
    intro q hq hqh
    simp only [applyOp, performCleanup] at hq
    rw [List.mem_filter] at hq
    obtain ⟨hqm, _⟩ := hq
    rw [List.mem_map] at hqm
    obtain ⟨p, hp, he⟩ := hqm
    rw [← he] at hqh ⊢
    simp only at hqh ⊢
    unfold cleanupStep at hqh ⊢
    by_cases hhb : now - p.2.lastHeartbeat > heartbeatTimeout
    · by_cases hcn : p.2.isConnected = true
      · rw [if_pos hhb, if_pos hcn] at hqh
        simp at hqh
      · rw [if_pos hhb, if_neg hcn] at hqh
        rw [if_pos hhb, if_neg hcn]
        exact hInv p hp hqh
    · rw [if_neg hhb] at hqh
      rw [if_neg hhb]
      exact hInv p hp hqh

/-- Witness for the amended C4: registering a single device from the
empty registry satisfies the guard trivially and keeps the invariant. -/
theorem registry_health_inv_preserved_witness :
    RegistryInv (applyOp emptyConnMgr (RegOp.register "conn-1" 0
      { deviceID := "d1", sessionID := "d1-aaaa1111", streamID := none,
        connectedAt := 0, lastHeartbeat := 0, metadata := [], isActive := true })) :=
  registry_health_inv_preserved emptyConnMgr _ (by decide) (by decide)

/-- The fresh-registration request of spec scenario 1. -/
def c1Request : RegisterDeviceRequest :=
  { deviceId := "spec-001", name := "Spectrometer Alpha", type := "spectrometer",
    version := "1.2.3", capabilities := ["spectrum", "calibration"], metadata := [] }

/-- C1: the claim — a valid registration for an absent device id succeeds
— is right, and the code is wrong.  The request passes validation, but
deviceRepository.GetByID reports the absent row with the ad-hoc error
`device not found: …` (part_008:106) rather than the sentinel
repository.ErrNotFound that RegisterDevice tolerates (part_002:53), so
the handler aborts with Internal instead of creating the device; the
handler's own unit test expects this call to succeed with a mock that
returns repository.ErrNotFound (part_002:771-790). -/
theorem registerDevice_absent_device_fails :
    RegisterDevice 1000 "abcd1234" "conn-1" c1Request
      { devices := [], registry := emptyConnMgr } = .error .internal
  ∧ validateRegisterDeviceRequest c1Request = none
  ∧ deviceRepoGetByID [] "spec-001" =
      .error (.message ("device not found: " ++ "spec-001")) := by
  refine ⟨?_, by decide, by decide⟩
  decide

/-- One CreateBulk iteration: the counts advance by exactly one, a
failure appends exactly one error, a success appends exactly one row, and
the rows already in the table are untouched. -/
theorem createBulkStep_facts (now : Nat) (res : BulkResult) (store : List Measurement)
    (m : Measurement) :
    (createBulkStep now (res, store) m).1.successCount +
      (createBulkStep now (res, store) m).1.failureCount =
        res.successCount + res.failureCount + 1
  ∧ (createBulkStep now (res, store) m).1.errors.length + res.failureCount =
      res.errors.length + (createBulkStep now (res, store) m).1.failureCount
  ∧ (createBulkStep now (res, store) m).2.length + res.successCount =
      store.length + (createBulkStep now (res, store) m).1.successCount
  ∧ (createBulkStep now (res, store) m).2.take store.length = store
  ∧ store.length ≤ (createBulkStep now (res, store) m).2.length
  ∧ res.failureCount ≤ (createBulkStep now (res, store) m).1.failureCount
  ∧ ((measurementValidate m).isSome = true →
      res.failureCount + 1 ≤ (createBulkStep now (res, store) m).1.failureCount) := by
  unfold createBulkStep
  rcases hv : measurementValidate m with _ | e
  · simp only
    split
    · refine ⟨by simp; omega, by simp; omega, by simp, List.take_length store,
        by simp, by simp, fun _ => by simp⟩
    · refine ⟨by simp; omega, by simp, by simp; omega, ?_, by simp, by simp, ?_⟩
      · rw [show store.length = store.length + 0 from rfl]
        rw [List.take_append]
        simp
      · intro hs
        simp at hs
  · refine ⟨by simp; omega, by simp; omega, by simp, List.take_length store,
      by simp, by simp, fun _ => by simp⟩

/-- Invariant of the CreateBulk fold, by induction over the input items:
the counts advance by one per item, the error list tracks the failure
count, the table grows by the success count, and the rows already present
are untouched; at least every validation failure is counted. -/
theorem createBulk_fold (now : Nat) :
    ∀ (ms : List Measurement) (res : BulkResult) (store : List Measurement),
    (ms.foldl (createBulkStep now) (res, store)).1.successCount +
      (ms.foldl (createBulkStep now) (res, store)).1.failureCount =
        res.successCount + res.failureCount + ms.length
  ∧ (ms.foldl (createBulkStep now) (res, store)).1.errors.length + res.failureCount =
      res.errors.length + (ms.foldl (createBulkStep now) (res, store)).1.failureCount
  ∧ (ms.foldl (createBulkStep now) (res, store)).2.length + res.successCount =
      store.length + (ms.foldl (createBulkStep now) (res, store)).1.successCount
  ∧ (ms.foldl (createBulkStep now) (res, store)).2.take store.length = store
  ∧ res.failureCount + ms.countP (fun m => (measurementValidate m).isSome) ≤
      (ms.foldl (createBulkStep now) (res, store)).1.failureCount := by
  intro ms
  induction ms with
  | nil =>
    intro res store
    refine ⟨by simp, by simp, by simp, by simp, by simp⟩
  | cons m t ih =>
    intro res store
    simp only [List.foldl_cons, List.length_cons, List.countP_cons]
    obtain ⟨s1, s2, s3, s4, s5, s6, s7⟩ := createBulkStep_facts now res store m
    obtain ⟨i1, i2, i3, i4, i5⟩ :=
      ih (createBulkStep now (res, store) m).1 (createBulkStep now (res, store) m).2
    simp only [Prod.mk.eta] at i1 i2 i3 i4 i5
    refine ⟨by omega, by omega, by omega, ?_, ?_⟩
    · have hmin : min store.length (createBulkStep now (res, store) m).2.length =
          store.length := Nat.min_eq_left s5
      calc (t.foldl (createBulkStep now) (createBulkStep now (res, store) m)).2.take
            store.length
          = ((t.foldl (createBulkStep now) (createBulkStep now (res, store) m)).2.take
              (createBulkStep now (res, store) m).2.length).take store.length := by
            rw [List.take_take, hmin]
        _ = (createBulkStep now (res, store) m).2.take store.length := by rw [i4]
        _ = store := s4
    · by_cases hval : (measurementValidate m).isSome = true
      · have h7 := s7 hval
        simp only [hval, if_true]
        omega
      · simp only [Bool.not_eq_true] at hval
        simp only [hval]
        simp only [Bool.false_eq_true, if_false]
        omega

/-- C7: for every input list, CreateBulk returns success_count +
failure_count = n with exactly failure_count per-item errors; a failing
item (validation failures included) never aborts the processing — every
item is counted — the pre-existing rows are untouched, the successfully
inserted items are exactly the success_count rows appended after them,
and at least every validation failure is among the counted failures. -/
theorem createBulk_counts (now : Nat) (store : List Measurement)
    (ms : List Measurement) :
    (CreateBulk now store ms).1.successCount + (CreateBulk now store ms).1.failureCount =
      ms.length
  ∧ (CreateBulk now store ms).1.errors.length = (CreateBulk now store ms).1.failureCount
  ∧ (CreateBulk now store ms).2.length = store.length +
      (CreateBulk now store ms).1.successCount
  ∧ (CreateBulk now store ms).2.take store.length = store
  ∧ ms.countP (fun m => (measurementValidate m).isSome) ≤
      (CreateBulk now store ms).1.failureCount := by
  obtain ⟨h1, h2, h3, h4, h5⟩ :=
    createBulk_fold now ms { successCount := 0, failureCount := 0, errors := [] } store
  exact ⟨by simpa using h1, by simpa using h2, by simpa using h3, h4, by simpa using h5⟩

/-- C8: get-pending returns exactly the given device's pending,
not-yet-expired commands (a permutation of the selected rows, every
returned row belonging to the device, pending, and unexpired), sorted by
priority descending with submitted-at — persisted as the created_at
column — ascending among equal priorities. -/
theorem getPendingCommands_spec (now : Nat) (d : String) (tbl : List CommandRow) :
    (GetPendingCommands now d tbl).Perm (tbl.filter (pendingSel now d))
  ∧ List.Sorted pendingOrder (GetPendingCommands now d tbl)
  ∧ ∀ c ∈ GetPendingCommands now d tbl,
      c.deviceID = d ∧ c.status = CommandStatus.pending ∧
        ∀ e, c.expiresAt = some e → now < e := by
  refine ⟨List.perm_insertionSort _ _, List.sorted_insertionSort _ _, ?_⟩
  intro c hc
  have hmem : c ∈ tbl.filter (pendingSel now d) :=
    (List.perm_insertionSort pendingOrder (tbl.filter (pendingSel now d))).mem_iff.mp hc
  rw [List.mem_filter] at hmem
  have hsel := hmem.2
  unfold pendingSel at hsel
  simp only [Bool.and_eq_true, decide_eq_true_eq] at hsel
  refine ⟨hsel.1.1, hsel.1.2, ?_⟩
  intro e he
  have h2 := hsel.2
  rw [he] at h2
  simpa using h2

/-- Witness for C8 at a concrete table of three rows of one device. -/
theorem getPendingCommands_spec_witness :
    List.Sorted pendingOrder (GetPendingCommands 5 "d1" [
      { id := "i1", commandID := "c1", deviceID := "d1", type := "calibrate",
        parameters := "", status := .pending, priority := 1, timeoutSeconds := 30,
        result := "", errorMessage := none, executedAt := none, createdAt := 7,
        updatedAt := 0, expiresAt := some 9 },
      { id := "i2", commandID := "c2", deviceID := "d1", type := "calibrate",
        parameters := "", status := .pending, priority := 2, timeoutSeconds := 30,
        result := "", errorMessage := none, executedAt := none, createdAt := 8,
        updatedAt := 0, expiresAt := none },
      { id := "i3", commandID := "c3", deviceID := "d1", type := "calibrate",
        parameters := "", status := .pending, priority := 1, timeoutSeconds := 30,
        result := "", errorMessage := none, executedAt := none, createdAt := 6,
        updatedAt := 0, expiresAt := some 9 }]) :=
  (getPendingCommands_spec 5 "d1" [
      { id := "i1", commandID := "c1", deviceID := "d1", type := "calibrate",
        parameters := "", status := .pending, priority := 1, timeoutSeconds := 30,
        result := "", errorMessage := none, executedAt := none, createdAt := 7,
        updatedAt := 0, expiresAt := some 9 },
      { id := "i2", commandID := "c2", deviceID := "d1", type := "calibrate",
        parameters := "", status := .pending, priority := 2, timeoutSeconds := 30,
        result := "", errorMessage := none, executedAt := none, createdAt := 8,
        updatedAt := 0, expiresAt := none },
      { id := "i3", commandID := "c3", deviceID := "d1", type := "calibrate",
        parameters := "", status := .pending, priority := 1, timeoutSeconds := 30,
        result := "", errorMessage := none, executedAt := none, createdAt := 6,
        updatedAt := 0, expiresAt := some 9 }]).2.1

/-- The base64url alphabet decodes its own characters, over Fin 64. -/
theorem b64Val_b64Char_fin : ∀ v : Fin 64, b64Val (b64Char v.val) = some v.val := by decide

/-- The base64url alphabet decodes its own characters. -/
theorem b64Val_b64Char (v : Nat) (h : v < 64) : b64Val (b64Char v) = some v :=
  b64Val_b64Char_fin ⟨v, h⟩

/-- No alphabet character is the padding byte 61, over Fin 64. -/
theorem b64Char_ne_pad_fin : ∀ v : Fin 64, b64Char v.val ≠ 61 := by decide

/-- No alphabet character is the padding byte 61. -/
theorem b64Char_ne_pad (v : Nat) (h : v < 64) : b64Char v ≠ 61 :=
  b64Char_ne_pad_fin ⟨v, h⟩

/-- Alphabet characters are ASCII, over Fin 64. -/
theorem b64Char_lt_fin : ∀ v : Fin 64, b64Char v.val < 128 := by decide

/-- Alphabet characters are ASCII. -/
theorem b64Char_lt (v : Nat) (h : v < 64) : b64Char v < 128 :=
  b64Char_lt_fin ⟨v, h⟩

/-- Every byte of a base64url encoding is ASCII. -/
theorem b64Encode_lt : ∀ (l : List Nat), (∀ b ∈ l, b < 256) →
    ∀ c ∈ b64Encode l, c < 128
  | [], _, c, hc => by simp [b64Encode] at hc
  | [b0], h, c, hc => by
    have h0 : b0 < 256 := h b0 (by simp)
    simp only [b64Encode, List.mem_cons, List.not_mem_nil, or_false] at hc
    rcases hc with rfl | rfl | rfl | rfl
    · exact b64Char_lt _ (by omega)
    · exact b64Char_lt _ (by omega)
    · omega
    · omega
  | [b0, b1], h, c, hc => by
    have h0 : b0 < 256 := h b0 (by simp)
    have h1 : b1 < 256 := h b1 (by simp)
    simp only [b64Encode, List.mem_cons, List.not_mem_nil, or_false] at hc
    rcases hc with rfl | rfl | rfl | rfl
    · exact b64Char_lt _ (by omega)
    · exact b64Char_lt _ (by omega)
    · exact b64Char_lt _ (by omega)
    · omega
  | b0 :: b1 :: b2 :: rest, h, c, hc => by
    have h0 : b0 < 256 := h b0 (by simp)
    have h1 : b1 < 256 := h b1 (by simp)
    have h2 : b2 < 256 := h b2 (by simp)
    simp only [b64Encode, List.mem_cons] at hc
    rcases hc with rfl | rfl | rfl | rfl | hc
    · exact b64Char_lt _ (by omega)
    · exact b64Char_lt _ (by omega)
    · exact b64Char_lt _ (by omega)
    · exact b64Char_lt _ (by omega)
    · exact b64Encode_lt rest (fun b hb => h b (by simp [hb])) c hc

/-- base64url decoding inverts encoding on byte lists. -/
theorem b64Decode_b64Encode : ∀ (l : List Nat), (∀ b ∈ l, b < 256) →
    b64Decode (b64Encode l) = some l
  | [], _ => rfl
  | [b0], h => by
    have h0 : b0 < 256 := h b0 (by simp)
    simp only [b64Encode, b64Decode]
    rw [b64Val_b64Char (b0 / 4) (by omega), b64Val_b64Char (b0 % 4 * 16) (by omega)]
    simp only [reduceIte, and_self, if_true]
    have he : b0 / 4 * 4 + b0 % 4 * 16 / 16 = b0 := by omega
    rw [he]
  | [b0, b1], h => by
    have h0 : b0 < 256 := h b0 (by simp)
    have h1 : b1 < 256 := h b1 (by simp)
    simp only [b64Encode, b64Decode]
    rw [b64Val_b64Char (b0 / 4) (by omega),
        b64Val_b64Char (b0 % 4 * 16 + b1 / 16) (by omega)]
    dsimp only
    rw [if_neg (b64Char_ne_pad (b1 % 16 * 4) (by omega))]
    rw [b64Val_b64Char (b1 % 16 * 4) (by omega)]
    dsimp only
    simp only [reduceIte, if_true]
    have he0 : b0 / 4 * 4 + (b0 % 4 * 16 + b1 / 16) / 16 = b0 := by omega
    have he1 : (b0 % 4 * 16 + b1 / 16) % 16 * 16 + b1 % 16 * 4 / 4 = b1 := by omega
    rw [he0, he1]
  | b0 :: b1 :: b2 :: rest, h => by
    have h0 : b0 < 256 := h b0 (by simp)
    have h1 : b1 < 256 := h b1 (by simp)
    have h2 : b2 < 256 := h b2 (by simp)
    have ih := b64Decode_b64Encode rest (fun b hb => h b (by simp [hb]))
    simp only [b64Encode, b64Decode]
    rw [b64Val_b64Char (b0 / 4) (by omega),
        b64Val_b64Char (b0 % 4 * 16 + b1 / 16) (by omega)]
    dsimp only
    rw [if_neg (b64Char_ne_pad (b1 % 16 * 4 + b2 / 64) (by omega))]
    rw [b64Val_b64Char (b1 % 16 * 4 + b2 / 64) (by omega)]
    dsimp only
    rw [if_neg (b64Char_ne_pad (b2 % 64) (by omega))]
    rw [b64Val_b64Char (b2 % 64) (by omega)]
    dsimp only
    rw [ih]
    dsimp only
    have he0 : b0 / 4 * 4 + (b0 % 4 * 16 + b1 / 16) / 16 = b0 := by omega
    have he1 : (b0 % 4 * 16 + b1 / 16) % 16 * 16 + (b1 % 16 * 4 + b2 / 64) / 4 = b1 := by
      omega
    have he2 : (b1 % 16 * 4 + b2 / 64) % 4 * 64 + b2 % 64 = b2 := by omega
    rw [he0, he1, he2]

/-- Stripping an exact leading byte sequence leaves the remainder. -/
theorem stripBytes_append (pre rest : List Nat) : stripBytes pre (pre ++ rest) = some rest := by
  induction pre with
  | nil => rfl
  | cons p t ih => simp [stripBytes, ih]

/-- takeWhile and dropWhile split an append exactly at the boundary when
the prefix satisfies the predicate and the suffix starts by failing
it. -/
theorem takeWhile_append_all (p : Nat → Bool) (l1 l2 : List Nat)
    (h1 : ∀ b ∈ l1, p b = true)
    (h2 : ∀ b, l2.head? = some b → p b = false) :
    (l1 ++ l2).takeWhile p = l1 ∧ (l1 ++ l2).dropWhile p = l2 := by
  induction l1 with
  | nil =>
    simp only [List.nil_append]
    cases l2 with
    | nil => simp
    | cons b t =>
      have hb := h2 b rfl
      simp [List.takeWhile_cons, List.dropWhile_cons, hb]
  | cons a t ih =>
    have ha := h1 a (by simp)
    obtain ⟨ih1, ih2⟩ := ih (fun b hb => h1 b (by simp [hb]))
    simp [List.takeWhile_cons, List.dropWhile_cons, ha, ih1, ih2]

/-- Folding the decimal bytes of a digit list accumulates its value. -/
theorem foldl_digitBytes (l : List Nat) :
    ∀ a : Nat, ((l.reverse.map (fun d => d + 48)).foldl (fun acc b => acc * 10 + (b - 48)) a)
      = a * 10 ^ l.length + Nat.ofDigits 10 l := by
  induction l with
  | nil =>
    intro a
    simp [Nat.ofDigits]
  | cons d t ih =>
    intro a
    simp only [List.reverse_cons, List.map_append, List.foldl_append, List.map_cons,
      List.map_nil, List.foldl_cons, List.foldl_nil, List.length_cons]
    rw [ih a, Nat.ofDigits_cons]
    have hd : d + 48 - 48 = d := by omega
    rw [hd]
    ring

/-- Every byte of natDigitBytes is a decimal digit byte. -/
theorem natDigitBytes_digit (n : Nat) : ∀ b ∈ natDigitBytes n, isDigitByte b = true := by
  intro b hb
  unfold natDigitBytes at hb
  split at hb
  · simp only [List.mem_singleton] at hb
    subst hb
    decide
  · rw [List.mem_map] at hb
    obtain ⟨d, hd, rfl⟩ := hb
    rw [List.mem_reverse] at hd
    have hlt : d < 10 := Nat.digits_lt_base (by norm_num) hd
    simp only [isDigitByte, Bool.and_eq_true, decide_eq_true_eq]
    omega

/-- Digit bytes are ASCII. -/
theorem natDigitBytes_lt (n : Nat) : ∀ b ∈ natDigitBytes n, b < 128 := by
  intro b hb
  have h := natDigitBytes_digit n b hb
  simp only [isDigitByte, Bool.and_eq_true, decide_eq_true_eq] at h
  omega

/-- natDigitBytes is never empty. -/
theorem natDigitBytes_ne_nil (n : Nat) : natDigitBytes n ≠ [] := by
  unfold natDigitBytes
  split
  · simp
  · next h =>
    simp only [ne_eq, List.map_eq_nil_iff, List.reverse_eq_nil_iff]
    exact Nat.digits_ne_nil_iff_ne_zero.mpr h

/-- readNat parses the decimal bytes of `n` exactly, leaving a remainder
that does not start with a digit. -/
theorem readNat_digits (n : Nat) (rest : List Nat)
    (hrest : ∀ b, rest.head? = some b → isDigitByte b = false) :
    readNat (natDigitBytes n ++ rest) = some (n, rest) := by
  obtain ⟨htake, hdrop⟩ :=
    takeWhile_append_all isDigitByte (natDigitBytes n) rest (natDigitBytes_digit n) hrest
  unfold readNat
  rw [htake, hdrop]
  rw [if_neg (by simp [List.isEmpty_iff, natDigitBytes_ne_nil n])]
  unfold natDigitBytes
  split
  · next h =>
    subst h
    rfl
  · rw [foldl_digitBytes]
    simp [Nat.ofDigits_digits]

/-- readUntilQuote splits a quote-free string at its closing quote. -/
theorem readUntilQuote_append (s rest : List Nat) (hs : ∀ b ∈ s, b ≠ 34) :
    readUntilQuote (s ++ 34 :: rest) = some (s, rest) := by
  obtain ⟨htake, hdrop⟩ := takeWhile_append_all (fun b => b ≠ 34) s (34 :: rest)
    (fun b hb => decide_eq_true (hs b hb))
    (fun b hb => by
      simp only [List.head?_cons, Option.some.injEq] at hb
      subst hb
      decide)
  unfold readUntilQuote
  rw [hdrop, htake]
  dsimp only
  rw [if_pos rfl]

/-- ofNat inverts toNat on ASCII code points. -/
theorem char_toNat_ofNat (n : Nat) (h : n < 128) : (Char.ofNat n).toNat = n := by
  have hv : n.isValidChar := Or.inl (by omega)
  unfold Char.ofNat
  split
  · rfl
  · contradiction

/-- Reading back the bytes of a string rebuilt from ASCII bytes yields
the same bytes. -/
theorem strBytes_mk (bs : List Nat) (h : ∀ b ∈ bs, b < 128) :
    strBytes (String.mk (bs.map Char.ofNat)) = bs := by
  show (bs.map Char.ofNat).map Char.toNat = bs
  rw [List.map_map]
  have he : List.map (Char.toNat ∘ Char.ofNat) bs = List.map id bs :=
    List.map_congr_left (fun b hb => by
      simp only [Function.comp_apply, id_eq]
      exact char_toNat_ofNat b (h b hb))
  rw [he, List.map_id]

/-- Rebuilding a string from its own bytes is the identity. -/
theorem mk_strBytes (s : String) : String.mk ((strBytes s).map Char.ofNat) = s := by
  show String.mk ((s.data.map Char.toNat).map Char.ofNat) = s
  rw [List.map_map]
  have he : List.map (Char.ofNat ∘ Char.toNat) s.data = List.map id s.data :=
    List.map_congr_left (fun c _ => by
      simp only [Function.comp_apply, id_eq]
      exact Char.ofNat_toNat c)
  rw [he, List.map_id]

/-- Every byte of the canonical JSON encoding of a PageToken with ASCII
field values is ASCII. -/
theorem jsonBytes_lt (t : PageToken)
    (hs : ∀ c ∈ t.sortBy.data, c.toNat < 128)
    (ho : ∀ c ∈ t.order.data, c.toNat < 128) :
    ∀ b ∈ jsonBytesOfPageToken t, b < 128 := by
  unfold jsonBytesOfPageToken
  refine List.forall_mem_append.mpr ⟨by decide, ?_⟩
  refine List.forall_mem_append.mpr ⟨natDigitBytes_lt t.offset, ?_⟩
  refine List.forall_mem_append.mpr ⟨by decide, ?_⟩
  refine List.forall_mem_append.mpr ⟨?_, ?_⟩
  · intro b hb
    simp only [strBytes, List.mem_map] at hb
    obtain ⟨c, hc, rfl⟩ := hb
    exact hs c hc
  · refine List.forall_mem_cons.mpr ⟨by omega, ?_⟩
    refine List.forall_mem_append.mpr ⟨by decide, ?_⟩
    refine List.forall_mem_append.mpr ⟨?_, by decide⟩
    intro b hb
    simp only [strBytes, List.mem_map] at hb
    obtain ⟨c, hc, rfl⟩ := hb
    exact ho c hc

/-- Parsing the canonical JSON encoding of a PageToken with quote-free
field values recovers the token. -/
theorem parseJson_jsonBytes (t : PageToken)
    (hs : ∀ c ∈ t.sortBy.data, c.toNat ≠ 34)
    (ho : ∀ c ∈ t.order.data, c.toNat ≠ 34) :
    parseJsonPageToken (jsonBytesOfPageToken t) = some t := by
  have hs' : ∀ b ∈ strBytes t.sortBy, b ≠ 34 := by
    intro b hb
    simp only [strBytes, List.mem_map] at hb
    obtain ⟨c, hc, rfl⟩ := hb
    exact hs c hc
  have ho' : ∀ b ∈ strBytes t.order, b ≠ 34 := by
    intro b hb
    simp only [strBytes, List.mem_map] at hb
    obtain ⟨c, hc, rfl⟩ := hb
    exact ho c hc
  unfold parseJsonPageToken jsonBytesOfPageToken
  rw [stripBytes_append]
  dsimp only
  rw [readNat_digits t.offset _ (by
    intro b hb
    simp only [jsonKeySortBy, List.cons_append, List.head?_cons, Option.some.injEq] at hb
    subst hb
    decide)]
  dsimp only
  rw [stripBytes_append]
  dsimp only
  rw [readUntilQuote_append (strBytes t.sortBy) _ hs']
  dsimp only
  rw [stripBytes_append]
  dsimp only
  rw [show strBytes t.order ++ [34, 125] = strBytes t.order ++ 34 :: [125] from rfl]
  rw [readUntilQuote_append (strBytes t.order) _ ho']
  dsimp only
  rw [if_pos rfl]
  rw [mk_strBytes, mk_strBytes]

/-- C9: cursor serialization round-trips — parsing the canonical JSON
object recovers the whole emitted cursor, parsePageToken applied to
generatePageToken returns exactly the emitted offset, and a malformed
token is rejected with InvalidArgument by the ListDevices handler.  The
hypotheses restrict the sort field values to quote-free ASCII, which
every cursor emitted by the pagination satisfies (sort_by is drawn from
the allow-list, order is ASC or DESC). -/
theorem pageToken_roundtrip (t : PageToken)
    (hs : ∀ c ∈ t.sortBy.data, c.toNat < 128 ∧ c.toNat ≠ 34)
    (ho : ∀ c ∈ t.order.data, c.toNat < 128 ∧ c.toNat ≠ 34) :
    parseJsonPageToken (jsonBytesOfPageToken t) = some t
  ∧ parsePageToken (generatePageToken t) = some t.offset
  ∧ parsePageTokenHandler "%%%" = .error .invalidArgument := by
  have hjson := parseJson_jsonBytes t (fun c hc => (hs c hc).2) (fun c hc => (ho c hc).2)
  refine ⟨hjson, ?_, by decide⟩
  have hlt : ∀ b ∈ jsonBytesOfPageToken t, b < 128 :=
    jsonBytes_lt t (fun c hc => (hs c hc).1) (fun c hc => (ho c hc).1)
  have h256 : ∀ b ∈ jsonBytesOfPageToken t, b < 256 := fun b hb => by
    have := hlt b hb
    omega
  unfold parsePageToken generatePageToken
  rw [strBytes_mk (b64Encode (jsonBytesOfPageToken t)) (b64Encode_lt _ h256)]
  rw [b64Decode_b64Encode _ h256]
  dsimp only
  rw [hjson]
  rfl

/-- Witness for C9 at the cursor the pagination emits after the first
default page: offset 50, sorted by updated_at descending. -/
theorem pageToken_roundtrip_witness :
    parsePageToken (generatePageToken
      { offset := 50, sortBy := "updated_at", order := "DESC" }) = some 50 :=
  (pageToken_roundtrip { offset := 50, sortBy := "updated_at", order := "DESC" }
    (by decide) (by decide)).2.1

end LabGateway
